import Mathlib

/-!
Verification of the SwiftAPI attestation mediator for browser-use
(`swiftapi_integration/tools.py` and `swiftapi_integration/attestation.py`).

The Python modules are shallowly embedded: pure helpers become Lean
functions, the HTTP boundary becomes an explicit outcome parameter
describing what the transport returned (success body, HTTP status error,
or request error), and Python exceptions become explicit result variants
(`ClientVerifyResult`, `ProviderVerifyResult`).  Dictionaries are
insertion-ordered association lists; `dict.get(k, d)` becomes
`Option.getD`.
-/

/-! ## Risk classifier (`tools.py`)

`HIGH_RISK_ACTIONS` and `READ_ONLY_ACTIONS` are module-level sets of
action-type strings; `_requires_attestation` lowercases the action name
and tests membership in `HIGH_RISK_ACTIONS` only.
-/

/-- Action types considered high-risk, from `tools.py` `HIGH_RISK_ACTIONS`. -/
def HIGH_RISK_ACTIONS : List String :=
  ["click", "input", "input_text", "fill", "navigate", "go_to_url",
   "search", "submit", "upload", "download", "evaluate", "execute_script",
   "press", "keyboard", "drag", "drop", "select", "hover"]

/-- Action types considered read-only, from `tools.py` `READ_ONLY_ACTIONS`. -/
def READ_ONLY_ACTIONS : List String :=
  ["screenshot", "get_text", "get_html", "get_url", "get_title",
   "extract", "find_text", "wait", "sleep", "scroll"]

/-- ASCII model of Python `str.lower` on a single character: uppercase
ASCII letters (code points 65..90) map to their lowercase counterparts,
everything else is unchanged. -/
def lowerChar (c : Char) : Char :=
  if 65 ≤ c.toNat ∧ c.toNat ≤ 90 then Char.ofNat (c.toNat + 32) else c

/-- ASCII model of Python `str.lower` applied to a whole string. -/
def lowerStr (s : String) : String := ⟨s.data.map lowerChar⟩

/-- Model of `SwiftAPITools._requires_attestation`: returns `true` when
`attest_all_actions` is set, otherwise tests whether the lowercased
action name is in `HIGH_RISK_ACTIONS` (the read-only set is never
consulted by the source). -/
def requires_attestation (attest_all_actions : Bool) (action_name : String) : Bool :=
  if attest_all_actions then true
  else HIGH_RISK_ACTIONS.contains (lowerStr action_name)

/-! ## Substring helper, used to state what a message surfaces. -/

/-- `strContainsSub hay needle` holds when `needle` occurs contiguously
inside `hay` (naive positional scan over the character list). -/
def strContainsSub (hay needle : String) : Bool :=
  (List.range (hay.data.length + 1)).any
    (fun i => needle.data.isPrefixOf (hay.data.drop i))

/-! ## Char.toLower idempotence support -/

theorem toNat_ofNat_lowercase {m : Nat} (h1 : 97 ≤ m) (h2 : m ≤ 122) :
    (Char.ofNat m).toNat = m := by
  interval_cases m <;> decide

theorem lowerChar_idem (c : Char) : lowerChar (lowerChar c) = lowerChar c := by
  unfold lowerChar
  by_cases h : 65 ≤ c.toNat ∧ c.toNat ≤ 90
  · rw [if_pos h]
    have hn : (Char.ofNat (c.toNat + 32)).toNat = c.toNat + 32 :=
      toNat_ofNat_lowercase (by omega) (by omega)
    rw [if_neg]
    intro hcon
    rw [hn] at hcon
    omega
  · rw [if_neg h, if_neg h]

theorem lowerStr_idem (s : String) : lowerStr (lowerStr s) = lowerStr s := by
  unfold lowerStr
  simp only [List.map_map]
  congr 1
  exact List.map_congr_left (fun c _ => lowerChar_idem c)

/-! ## JSON values and `json.dumps(..., sort_keys=True)` (`tools.py`)

`_generate_action_fingerprint` hashes the canonical serialization of
`\x7b"action": name, "params": params\x7d`.  JSON values are modelled by
`JsonVal`; objects are insertion-ordered association lists (Python
dicts).  `json.dumps` with `sort_keys=True` renders object fields in
key-sorted order with default separators `", "` and `": "`.
-/

/-- JSON value model: Python values serializable by `json.dumps`. -/
inductive JsonVal where
  | str (s : String)
  | num (n : Int)
  | bool (b : Bool)
  | null
  | arr (xs : List JsonVal)
  | obj (fields : List (String × JsonVal))

/-- Lower-case hex digit for a nibble. -/
def hexDigit (n : Nat) : Char :=
  if n < 10 then Char.ofNat (48 + n) else Char.ofNat (87 + n)

/-- JSON string escaping as performed by `json.dumps` with the default
`ensure_ascii=True`: quote and backslash get a backslash escape, common
control characters get their short escapes, any other character outside
printable ASCII is rendered as a `\u` escape of its code point (the
model elides surrogate pairs for code points above 0xFFFF). -/
def escapeJsonChar (c : Char) : List Char :=
  if c = Char.ofNat 34 then [Char.ofNat 92, Char.ofNat 34]
  else if c = Char.ofNat 92 then [Char.ofNat 92, Char.ofNat 92]
  else if c = Char.ofNat 10 then [Char.ofNat 92, 'n']
  else if c = Char.ofNat 9 then [Char.ofNat 92, 't']
  else if c = Char.ofNat 13 then [Char.ofNat 92, 'r']
  else if c.toNat < 32 ∨ c.toNat > 126 then
    Char.ofNat 92 :: 'u' :: (List.range 4).map (fun i => hexDigit ((c.toNat >>> (4 * (3 - i))) % 16))
  else [c]

/-- Render a JSON string literal: double quotes around the escaped body. -/
def renderJsonString (s : String) : String :=
  ⟨Char.ofNat 34 :: (s.data.flatMap escapeJsonChar) ++ [Char.ofNat 34]⟩

/-- Key order used by `sort_keys=True`: compare rendered fields by key. -/
def fieldKeyLe {α : Type} (a b : String × α) : Prop := a.1 ≤ b.1

instance {α : Type} : DecidableRel (@fieldKeyLe α) := fun a b => by
  unfold fieldKeyLe; infer_instance

instance {α : Type} : IsTotal (String × α) fieldKeyLe := ⟨fun a b => le_total a.1 b.1⟩

instance {α : Type} : IsTrans (String × α) fieldKeyLe := ⟨fun _ _ _ h h2 => le_trans h h2⟩

/-- Sort rendered object fields by key, as `sort_keys=True` does.  A
comparison only ever looks at the key, so sorting the rendered fields
agrees with sorting the raw fields and then rendering. -/
def sortRenderedFields (l : List (String × String)) : List (String × String) :=
  l.insertionSort fieldKeyLe

mutual
/-- Model of `json.dumps(v, sort_keys=True)` (default separators). -/
def serializeVal : JsonVal → String
  | .str s => renderJsonString s
  | .num n => toString n
  | .bool b => if b then "true" else "false"
  | .null => "null"
  | .arr xs => "[" ++ String.intercalate ", " (serializeList xs) ++ "]"
  | .obj fs =>
      "\x7b" ++
        String.intercalate ", "
          ((sortRenderedFields (serializeFields fs)).map
            (fun p => renderJsonString p.1 ++ ": " ++ p.2)) ++
      "\x7d"

/-- Serialize array elements in order. -/
def serializeList : List JsonVal → List String
  | [] => []
  | x :: xs => serializeVal x :: serializeList xs

/-- Render each object field's value, keeping the key and field order. -/
def serializeFields : List (String × JsonVal) → List (String × String)
  | [] => []
  | (k, v) :: fs => (k, serializeVal v) :: serializeFields fs
end

/-! ## SHA-256 over the UTF-8 bytes of the serialization -/

/-- UTF-8 encoding of one character (code point to 1-4 bytes). -/
def utf8EncodeChar (c : Char) : List Nat :=
  let n := c.toNat
  if n < 128 then [n]
  else if n < 2048 then [192 + n / 64, 128 + n % 64]
  else if n < 65536 then [224 + n / 4096, 128 + (n / 64) % 64, 128 + n % 64]
  else [240 + n / 262144, 128 + (n / 4096) % 64, 128 + (n / 64) % 64, 128 + n % 64]

/-- UTF-8 bytes of a string (`str.encode()`). -/
def utf8Bytes (s : String) : List Nat := s.data.flatMap utf8EncodeChar

/-- Right rotation of a 32-bit word represented as a `Nat` below `2^32`. -/
def rotr32 (x n : Nat) : Nat := ((x >>> n) ||| (x <<< (32 - n))) % 4294967296

/-- SHA-256 round constants. -/
def sha256K : List Nat :=
  [1116352408, 1899447441, 3049323471, 3921009573, 961987163,
   1508970993, 2453635748, 2870763221, 3624381080, 310598401,
   607225278, 1426881987, 1925078388, 2162078206, 2614888103,
   3248222580, 3835390401, 4022224774, 264347078, 604807628,
   770255983, 1249150122, 1555081692, 1996064986, 2554220882,
   2821834349, 2952996808, 3210313671, 3336571891, 3584528711,
   113926993, 338241895, 666307205, 773529912, 1294757372,
   1396182291, 1695183700, 1986661051, 2177026350, 2456956037,
   2730485921, 2820302411, 3259730800, 3345764771, 3516065817,
   3600352804, 4094571909, 275423344, 430227734, 506948616,
   659060556, 883997877, 958139571, 1322822218, 1537002063,
   1747873779, 1955562222, 2024104815, 2227730452, 2361852424,
   2428436474, 2756734187, 3204031479, 3329325298]

/-- SHA-256 initial hash state. -/
def sha256H0 : List Nat :=
  [1779033703, 3144134277, 1013904242, 2773480762,
   1359893119, 2600822924, 528734635, 1541459225]

/-- Big-endian byte rendering of `x` into `n` bytes. -/
def toBytesBE (n x : Nat) : List Nat :=
  (List.range n).map (fun i => (x >>> (8 * (n - 1 - i))) % 256)

/-- SHA-256 message padding: `0x80`, zeros to 56 mod 64, 8-byte length. -/
def sha256Pad (msg : List Nat) : List Nat :=
  let len := msg.length
  let padZeros := (119 - len % 64) % 64
  msg ++ [0x80] ++ List.replicate padZeros 0 ++ toBytesBE 8 (len * 8)

/-- Split a byte list into 64-byte chunks. -/
def chunks64 : List Nat → List (List Nat)
  | [] => []
  | x :: xs => ((x :: xs).take 64) :: chunks64 ((x :: xs).drop 64)
termination_by l => l.length
decreasing_by simp only [List.length_drop, List.length_cons]; omega

/-- Combine four bytes into one big-endian 32-bit word. -/
def bytesToWords : List Nat → List Nat
  | b0 :: b1 :: b2 :: b3 :: rest =>
      (((b0 * 256 + b1) * 256 + b2) * 256 + b3) :: bytesToWords rest
  | _ => []

/-- Append the next word of the SHA-256 message schedule. -/
def scheduleStep (w : List Nat) : List Nat :=
  let i := w.length
  let w15 := w.getD (i - 15) 0
  let w2 := w.getD (i - 2) 0
  let w16 := w.getD (i - 16) 0
  let w7 := w.getD (i - 7) 0
  let s0 := (rotr32 w15 7) ^^^ (rotr32 w15 18) ^^^ (w15 >>> 3)
  let s1 := (rotr32 w2 17) ^^^ (rotr32 w2 19) ^^^ (w2 >>> 10)
  w ++ [(w16 + s0 + w7 + s1) % 4294967296]

/-- Iterate `scheduleStep` a given number of times. -/
def buildSchedule (w : List Nat) : Nat → List Nat
  | 0 => w
  | n + 1 => buildSchedule (scheduleStep w) n

/-- One SHA-256 compression round on the state `[a,b,c,d,e,f,g,h]`. -/
def compressRound (k wi : Nat) (st : List Nat) : List Nat :=
  let a := st.getD 0 0
  let b := st.getD 1 0
  let c := st.getD 2 0
  let d := st.getD 3 0
  let e := st.getD 4 0
  let f := st.getD 5 0
  let g := st.getD 6 0
  let h := st.getD 7 0
  let S1 := (rotr32 e 6) ^^^ (rotr32 e 11) ^^^ (rotr32 e 25)
  let ch := (e &&& f) ^^^ ((e ^^^ 4294967295) &&& g)
  let temp1 := (h + S1 + ch + k + wi) % 4294967296
  let S0 := (rotr32 a 2) ^^^ (rotr32 a 13) ^^^ (rotr32 a 22)
  let maj := (a &&& b) ^^^ (a &&& c) ^^^ (b &&& c)
  let temp2 := (S0 + maj) % 4294967296
  [(temp1 + temp2) % 4294967296, a, b, c, (d + temp1) % 4294967296, e, f, g]

/-- Process one 64-byte block into the running hash state. -/
def compressBlock (hstate : List Nat) (block : List Nat) : List Nat :=
  let w := buildSchedule (bytesToWords block) 48
  let st := (List.range 64).foldl
    (fun st i => compressRound (sha256K.getD i 0) (w.getD i 0) st) hstate
  (List.range 8).map (fun i => (hstate.getD i 0 + st.getD i 0) % 4294967296)

/-- SHA-256 digest of a byte list, as eight 32-bit words. -/
def sha256Words (msg : List Nat) : List Nat :=
  (chunks64 (sha256Pad msg)).foldl compressBlock sha256H0

/-- Eight lower-case hex digits of a 32-bit word. -/
def word8Hex (w : Nat) : List Char :=
  (List.range 8).map (fun i => hexDigit ((w >>> (4 * (7 - i))) % 16))

/-- `hashlib.sha256(bytes).hexdigest()`: 64 lower-case hex characters. -/
def sha256Hex (msg : List Nat) : String :=
  ⟨(sha256Words msg).flatMap word8Hex⟩

/-- Model of `tools.py` `_generate_action_fingerprint`: the SHA-256 hex
digest of `json.dumps(\x7b"action": action_name, "params": params\x7d,
sort_keys=True).encode()`. -/
def generate_action_fingerprint (action_name : String)
    (params : List (String × JsonVal)) : String :=
  sha256Hex (utf8Bytes (serializeVal
    (JsonVal.obj [("action", JsonVal.str action_name),
                  ("params", JsonVal.obj params)])))

/-! ## Attestation data model (`attestation.py`)

The HTTP boundary is made explicit: `HttpVerifyOutcome` describes what
the transport returned for a `/verify` call (a parsed success body, an
HTTP status error with an optionally JSON-parsable body, or a request
error such as a timeout), and `RevocationOutcome` does the same for the
revocation endpoint.  Exceptions become result variants carrying the
exception message and the fields of `PolicyViolationError`.
-/

/-- The `execution_attestation` object of a `/verify` response body;
only the fields the source reads are modelled, each optional in the
sense of `dict.get`. -/
structure ExecAttestation where
  jti : Option String := none
  expires_at : Option String := none

/-- A parsed `/verify` success body; field access is `dict.get`, so every
field is optional and read with an explicit default. -/
structure VerifyResponseJson where
  approved : Option Bool := none
  verification_id : Option String := none
  decision_hash : Option String := none
  action_fingerprint : Option String := none
  reason : Option String := none
  execution_attestation : Option ExecAttestation := none
  policy_bundle_hash : Option String := none

/-- A parsed HTTP 403 denial body (`reason`, `policy_id` via `get`). -/
structure DenialBody where
  reason : Option String := none
  policy_id : Option String := none

/-- What the transport produced for a `client.post("/verify", ...)` call:
a success body, an `httpx.HTTPStatusError` with status code, optional
parsed JSON body and raw text, or an `httpx.RequestError` message. -/
inductive HttpVerifyOutcome where
  | ok (body : VerifyResponseJson)
  | httpStatus (status_code : Nat) (body : Option DenialBody) (text : String)
  | requestError (message : String)

/-- Model of the `AttestationResult` dataclass with its field defaults. -/
structure AttestationResult where
  approved : Bool
  verification_id : String := ""
  jti : String := ""
  decision_hash : String := ""
  action_fingerprint : String := ""
  reason : String := ""
  attestation : Option ExecAttestation := none
  policy_bundle_hash : Option String := none
  expires_at : Option String := none

/-- Result of `SwiftAPIClient.verify`: the returned body, or one of the
raised exceptions (`AttestationError` with its message, or
`PolicyViolationError` with message, `denial_reason` and `policy_id`). -/
inductive ClientVerifyResult where
  | ok (response : VerifyResponseJson)
  | attestation_error (message : String)
  | policy_violation (message : String) (denial_reason : String) (policy_id : String)

/-- Model of `SwiftAPIClient.verify` as a function of the transport
outcome: HTTP 401 raises `AttestationError("Invalid SwiftAPI key")`,
HTTP 403 raises `PolicyViolationError` built from the parsed denial body
(or from the raw text when the body fails to parse), any other status
raises a generic `AttestationError`, and a request error raises
`AttestationError("SwiftAPI unreachable: ...")`. -/
def SwiftAPIClient.verify (outcome : HttpVerifyOutcome) : ClientVerifyResult :=
  match outcome with
  | .ok body => .ok body
  | .httpStatus status_code body text =>
      if status_code == 401 then
        .attestation_error "Invalid SwiftAPI key"
      else if status_code == 403 then
        match body with
        | some data =>
            .policy_violation ("Action denied: " ++ (data.reason.getD "Unknown"))
              (data.reason.getD "") (data.policy_id.getD "")
        | none => .policy_violation ("Action denied: " ++ text) "" ""
      else
        .attestation_error ("SwiftAPI error: " ++ toString status_code)
  | .requestError message =>
      .attestation_error ("SwiftAPI unreachable: " ++ message)

/-- What the transport produced for the revocation-list fetch: a parsed
`revoked` list on success, or a failure of any kind (unreachable
endpoint, bad status, unparsable body). -/
inductive RevocationOutcome where
  | ok (revoked : List String)
  | failure

/-- Model of `SwiftAPIClient.check_revocation`: membership of the `jti`
in the fetched `revoked` list; on any exception the source returns
`True` (assume revoked). -/
def SwiftAPIClient.check_revocation (outcome : RevocationOutcome) (jti : String) : Bool :=
  match outcome with
  | .ok revoked => revoked.contains jti
  | .failure => true

/-- Result of a provider's `verify_action`: the returned
`AttestationResult`, or one of the raised exceptions. -/
inductive ProviderVerifyResult where
  | ok (result : AttestationResult)
  | policy_violation (message : String) (denial_reason : String) (policy_id : String)
  | attestation_error (message : String)

/-- Model of `SwiftAPIAttestationProvider.verify_action` as a function of
`config.fail_open` and the transport outcome.  On a success body it
raises `PolicyViolationError` when `approved` is falsy, otherwise builds
an `AttestationResult` from the body; a `PolicyViolationError` from any
source is re-raised; any other `AttestationError` is converted into a
synthesized approval when `fail_open` is set, and re-raised otherwise. -/
def SwiftAPIAttestationProvider.verify_action (fail_open : Bool)
    (action_type : String) (outcome : HttpVerifyOutcome) : ProviderVerifyResult :=
  match SwiftAPIClient.verify outcome with
  | .ok response =>
      if (response.approved.getD false) = false then
        .policy_violation
          ("Action \x27" ++ action_type ++ "\x27 denied: " ++
            (response.reason.getD "Policy denied action"))
          (response.reason.getD "Policy denied action") ""
      else
        .ok { approved := true,
              verification_id := response.verification_id.getD "",
              jti := (response.execution_attestation.bind ExecAttestation.jti).getD "",
              decision_hash := response.decision_hash.getD "",
              action_fingerprint := response.action_fingerprint.getD "",
              reason := response.reason.getD "",
              attestation := response.execution_attestation,
              policy_bundle_hash := response.policy_bundle_hash,
              expires_at := response.execution_attestation.bind ExecAttestation.expires_at }
  | .policy_violation message denial_reason policy_id =>
      .policy_violation message denial_reason policy_id
  | .attestation_error message =>
      if fail_open then
        .ok { approved := true, reason := "SwiftAPI unreachable, fail_open mode" }
      else
        .attestation_error message

/-- One record of the null provider's `_action_log` (the `timestamp` is
the wall-clock reading made inside the call, passed in explicitly). -/
structure ActionLogEntry where
  action_type : String
  params : List (String × JsonVal)
  intent : String
  timestamp : String

/-- Model of `NullAttestationProvider`: its `log_actions` flag and its
`_action_log` list. -/
structure NullAttestationProvider where
  log_actions : Bool
  action_log : List ActionLogEntry

/-- `NullAttestationProvider()` with the default `log_actions=True`. -/
def defaultNullProvider : NullAttestationProvider :=
  { log_actions := true, action_log := [] }

/-- The `AttestationResult` the null provider always returns. -/
def nullVerifyResult : AttestationResult :=
  { approved := true, reason := "NullProvider: No attestation (development mode)" }

/-- Model of `NullAttestationProvider.verify_action`: appends one log
record when `log_actions` is set, and returns an unconditional approval;
no authority outcome is consulted (the function has no transport
parameter). -/
def NullAttestationProvider.verify_action (p : NullAttestationProvider)
    (action_type : String) (action_params : List (String × JsonVal))
    (intent : String) (timestamp : String) :
    AttestationResult × NullAttestationProvider :=
  let p' :=
    if p.log_actions then
      { p with action_log :=
          p.action_log ++ [⟨action_type, action_params, intent, timestamp⟩] }
    else p
  (nullVerifyResult, p')

/-- Model of `NullAttestationProvider.check_revocation`: always `False`. -/
def NullAttestationProvider.check_revocation (_p : NullAttestationProvider)
    (_jti : String) : Bool := false

/-- Model of `NullAttestationProvider.get_action_log`: a copy of the log. -/
def NullAttestationProvider.get_action_log (p : NullAttestationProvider) :
    List ActionLogEntry := p.action_log

/-! ## Action interception mediator (`tools.py` `SwiftAPITools`)

`SwiftAPITools.act` extracts the one set action of the `ActionModel`,
asks `_requires_attestation`, and if attestation is required runs
`_get_attestation`, mapping each exception to an `ActionResult` carrying
an error message; otherwise the action passes through.  The four
distinct outcomes (three `return ActionResult(error=...)` statements and
the fall-through to `super().act`) are the constructors of
`ActDecision`, each carrying the exact message built by the source.
-/

/-- The attestation provider held by `SwiftAPITools`, abstracting over
the two shipped variants. -/
inductive Provider where
  | swiftapi (fail_open : Bool)
  | nullProvider (log_actions : Bool)

/-- Stateless view of a provider's `verify_action` used by the mediator:
the swiftapi variant is driven by the transport outcome; the null
variant returns its unconditional approval (its log side effect does not
affect the returned result). -/
def provider_verify (p : Provider) (outcome : HttpVerifyOutcome)
    (action_type : String) : ProviderVerifyResult :=
  match p with
  | .swiftapi fail_open =>
      SwiftAPIAttestationProvider.verify_action fail_open action_type outcome
  | .nullProvider _ => .ok nullVerifyResult

/-- Modelled from the spec: `config.py` (`SwiftAPIConfig`) is not under
`src/`; per the spec, `is_configured` is true iff the `api_key` is
present and non-empty. -/
def SwiftAPIConfig.is_configured (api_key : Option String) : Bool :=
  match api_key with
  | none => false
  | some k => decide (k ≠ "")

/-- Provider selection in `SwiftAPITools.__init__`: an explicitly passed
provider wins; otherwise a `SwiftAPIAttestationProvider` is built when
the config is configured; otherwise no provider is set (fail-closed). -/
def initAttestationProvider (attestation_provider : Option Provider)
    (api_key : Option String) (fail_open : Bool) : Option Provider :=
  match attestation_provider with
  | some p => some p
  | none =>
      if SwiftAPIConfig.is_configured api_key then some (.swiftapi fail_open)
      else none

/-- The message of the `AttestationError` raised by `_get_attestation`
when no provider is configured. -/
def notConfiguredMessage (action_name : String) : String :=
  "SwiftAPI not configured. Action \x27" ++ action_name ++
    "\x27 blocked. Set SWIFTAPI_KEY environment variable or pass swiftapi_key parameter."

/-- Model of `SwiftAPITools._get_attestation`: raises the not-configured
`AttestationError` when `_attestation_provider` is `None` (without
consulting any transport), and otherwise delegates to the provider. -/
def SwiftAPITools.get_attestation (provider : Option Provider)
    (outcome : HttpVerifyOutcome) (action_name : String) : ProviderVerifyResult :=
  match provider with
  | none => .attestation_error (notConfiguredMessage action_name)
  | some p => provider_verify p outcome action_name

/-- The terminal decision of `SwiftAPITools.act` for one action: one
constructor per `return ActionResult(error=...)` site, plus `executed`
for the fall-through to `super().act` (`attested` records whether the
attestation branch was taken or the action passed through read-only). -/
inductive ActDecision where
  | blockedNotApproved (error : String)
  | blockedPolicy (error : String)
  | blockedError (error : String)
  | executed (attested : Bool)

/-- The error message carried by a blocked `ActionResult`, if any. -/
def ActDecision.errorMessage : ActDecision → Option String
  | .blockedNotApproved e => some e
  | .blockedPolicy e => some e
  | .blockedError e => some e
  | .executed _ => none

/-- Model of `SwiftAPITools.act` for the one set action of the model:
classification, then attestation with the three exception handlers of
the source, building the exact error strings of the source. -/
def SwiftAPITools.act (attest_all_actions : Bool) (provider : Option Provider)
    (outcome : HttpVerifyOutcome) (action_name : String) : ActDecision :=
  if requires_attestation attest_all_actions action_name then
    match SwiftAPITools.get_attestation provider outcome action_name with
    | .ok attestation =>
        if attestation.approved = false then
          .blockedNotApproved
            ("Action \x27" ++ action_name ++ "\x27 blocked by SwiftAPI: " ++
              attestation.reason)
        else .executed true
    | .policy_violation _ denial_reason _ =>
        .blockedPolicy
          ("Action \x27" ++ action_name ++ "\x27 denied by policy: " ++ denial_reason)
    | .attestation_error message =>
        .blockedError
          ("SwiftAPI attestation failed for \x27" ++ action_name ++ "\x27: " ++ message)
  else .executed false

/-! ## Theorems settling the claims -/

/-- Claim C1 (code evaluated at the failing input): the action type
"frobnicate" is in neither `HIGH_RISK_ACTIONS` nor `READ_ONLY_ACTIONS`,
yet `_requires_attestation` returns `false` for it when
`attest_all_actions` is `false` — the source only tests membership in
`HIGH_RISK_ACTIONS`, so unclassified action types pass through without
attestation, contradicting the claimed safer default. -/
theorem unknown_action_type_not_attested :
    HIGH_RISK_ACTIONS.contains (lowerStr "frobnicate") = false
    ∧ READ_ONLY_ACTIONS.contains (lowerStr "frobnicate") = false
    ∧ requires_attestation false "frobnicate" = false := by
  refine ⟨by decide, by decide, by decide⟩

/-- Claim C9: classification is case-insensitive — for every action name
`s` and either value of `attest_all_actions`, `_requires_attestation`
gives the same answer on `s` and on `s.lower()`, because the source
lowercases the name before the membership test and lowercasing is
idempotent. -/
theorem requires_attestation_case_insensitive (attest_all : Bool) (s : String) :
    requires_attestation attest_all s = requires_attestation attest_all (lowerStr s) := by
  cases attest_all with
  | false => simp only [requires_attestation, lowerStr_idem, if_false, Bool.false_eq_true]
  | true => rfl

/-- Claim C6: `check_revocation` returns `true` for every `jti` when the
revocation lookup cannot complete, and returns `false` exactly when the
endpoint was successfully consulted and the `jti` is absent from the
returned revoked set. -/
theorem check_revocation_conservative (outcome : RevocationOutcome) (jti : String) :
    SwiftAPIClient.check_revocation RevocationOutcome.failure jti = true
    ∧ (SwiftAPIClient.check_revocation outcome jti = false ↔
        ∃ revoked, outcome = RevocationOutcome.ok revoked ∧ revoked.contains jti = false) := by
  refine ⟨rfl, ?_⟩
  cases outcome with
  | ok revoked =>
      constructor
      · intro h; exact ⟨revoked, rfl, h⟩
      · rintro ⟨r, hr, hc⟩
        injection hr with hr'
        rw [SwiftAPIClient.check_revocation, hr']
        exact hc
  | failure =>
      constructor
      · intro h; simp [SwiftAPIClient.check_revocation] at h
      · rintro ⟨r, hr, _⟩; cases hr

/-- Claim C3: with `fail_open=true`, an authority-unreachable failure of
the client call (`httpx.RequestError`) makes `verify_action` return an
`AttestationResult` with `approved=true`, empty `jti`, no attestation
artifact, and the reason "SwiftAPI unreachable, fail_open mode", instead
of raising. -/
theorem verify_action_fail_open_unreachable (err action_type : String) :
    SwiftAPIAttestationProvider.verify_action true action_type
        (HttpVerifyOutcome.requestError err)
      = ProviderVerifyResult.ok
          { approved := true, reason := "SwiftAPI unreachable, fail_open mode" } := rfl

/-- Claim C4, counterexample: with `fail_open=true`, an HTTP 401
authentication failure does NOT propagate — the
`except AttestationError` handler in `verify_action` also catches the
`AttestationError("Invalid SwiftAPI key")` raised for 401, so the
provider synthesizes an approved fail-open result, contrary to the
claim that the invalid-credential error is not handled by fail-open. -/
theorem invalid_credential_fail_open_counterexample :
    SwiftAPIAttestationProvider.verify_action true "click"
        (HttpVerifyOutcome.httpStatus 401 none "")
      = ProviderVerifyResult.ok
          { approved := true, reason := "SwiftAPI unreachable, fail_open mode" } := rfl

/-- Claim C4, amended: with `fail_open=false` (the default), an HTTP 401
authentication failure raised as `AttestationError("Invalid SwiftAPI
key")` propagates out of the provider, and the mediator blocks the
action with that error detail.  (With `fail_open=true` the source treats
the invalid-credential error like an unreachable authority and
synthesizes an approval — see the counterexample.) -/
theorem invalid_credential_blocked_when_fail_closed (attest_all : Bool)
    (body : Option DenialBody) (text action_name : String)
    (h : requires_attestation attest_all action_name = true) :
    SwiftAPITools.act attest_all (some (Provider.swiftapi false))
        (HttpVerifyOutcome.httpStatus 401 body text) action_name
      = ActDecision.blockedError
          ("SwiftAPI attestation failed for \x27" ++ action_name ++ "\x27: " ++
            "Invalid SwiftAPI key") := by
  unfold SwiftAPITools.act
  rw [h]
  rfl

/-- Witness for the amended claim C4 at the concrete high-risk action
"click". -/
theorem invalid_credential_blocked_when_fail_closed_witness :
    SwiftAPITools.act false (some (Provider.swiftapi false))
        (HttpVerifyOutcome.httpStatus 401 none "") "click"
      = ActDecision.blockedError
          "SwiftAPI attestation failed for \x27click\x27: Invalid SwiftAPI key" :=
  invalid_credential_blocked_when_fail_closed false none "" "click" (by decide)

/-- Claim C5, counterexample: an HTTP 403 denial carrying
`reason="budget exceeded"` and `policy_id="P-12"` produces a blocked
decision whose user-visible message surfaces the denial reason but NOT
the policy id — the handler in `act` interpolates only `e.denial_reason`
into the message, so "P-12" appears nowhere in it. -/
theorem denial_policy_id_not_surfaced :
    SwiftAPITools.act false (some (Provider.swiftapi false))
        (HttpVerifyOutcome.httpStatus 403
          (some { reason := some "budget exceeded", policy_id := some "P-12" }) "")
        "click"
      = ActDecision.blockedPolicy "Action \x27click\x27 denied by policy: budget exceeded"
    ∧ strContainsSub "Action \x27click\x27 denied by policy: budget exceeded" "P-12"
        = false := by
  exact ⟨rfl, by decide⟩

/-- Claim C5, amended: a structured HTTP 403 denial is surfaced as a
`PolicyViolationError` carrying exactly the denial reason and policy id,
and the mediator blocks with a message that surfaces exactly the denial
reason (the policy id stays on the error object and is not included in
the user-visible message). -/
theorem denial_reason_surfaced (fail_open attest_all : Bool)
    (reason pid text action_name : String)
    (h : requires_attestation attest_all action_name = true) :
    SwiftAPIClient.verify (HttpVerifyOutcome.httpStatus 403
        (some { reason := some reason, policy_id := some pid }) text)
      = ClientVerifyResult.policy_violation ("Action denied: " ++ reason) reason pid
    ∧ SwiftAPITools.act attest_all (some (Provider.swiftapi fail_open))
        (HttpVerifyOutcome.httpStatus 403
          (some { reason := some reason, policy_id := some pid }) text) action_name
      = ActDecision.blockedPolicy
          ("Action \x27" ++ action_name ++ "\x27 denied by policy: " ++ reason) := by
  refine ⟨rfl, ?_⟩
  unfold SwiftAPITools.act
  rw [h]
  rfl

/-- Witness for the amended claim C5 at the concrete denial of the
claim's example. -/
theorem denial_reason_surfaced_witness :
    SwiftAPIClient.verify (HttpVerifyOutcome.httpStatus 403
        (some { reason := some "budget exceeded", policy_id := some "P-12" }) "")
      = ClientVerifyResult.policy_violation "Action denied: budget exceeded"
          "budget exceeded" "P-12"
    ∧ SwiftAPITools.act true (some (Provider.swiftapi true))
        (HttpVerifyOutcome.httpStatus 403
          (some { reason := some "budget exceeded", policy_id := some "P-12" }) "")
        "navigate"
      = ActDecision.blockedPolicy
          "Action \x27navigate\x27 denied by policy: budget exceeded" :=
  denial_reason_surfaced true true "budget exceeded" "P-12" "" "navigate" (by decide)

/-- Claim C2: when no attestation provider is configured (no explicit
provider and an absent or empty api key, so `_attestation_provider` is
`None`), `act` on any high-risk action returns a blocked `ActionResult`
whose error wraps the not-configured `AttestationError` message, for
every transport outcome (the transport parameter is universally
quantified and never consulted — no network call is attempted) and for
every value of `fail_open` and `attest_all_actions`; and that message
states that SwiftAPI is not configured. -/
theorem act_blocked_when_not_configured (attest_all fail_open : Bool)
    (api_key : Option String) (outcome : HttpVerifyOutcome) (action_name : String)
    (hkey : SwiftAPIConfig.is_configured api_key = false)
    (hrisk : HIGH_RISK_ACTIONS.contains (lowerStr action_name) = true) :
    SwiftAPITools.act attest_all (initAttestationProvider none api_key fail_open)
        outcome action_name
      = ActDecision.blockedError
          ("SwiftAPI attestation failed for \x27" ++ action_name ++ "\x27: " ++
            notConfiguredMessage action_name)
    ∧ strContainsSub (notConfiguredMessage action_name) "SwiftAPI not configured"
        = true := by
  have hp : initAttestationProvider none api_key fail_open = none := by
    unfold initAttestationProvider
    rw [hkey]
    rfl
  have hreq : requires_attestation attest_all action_name = true := by
    cases attest_all
    · simpa [requires_attestation] using hrisk
    · rfl
  constructor
  · rw [hp]
    unfold SwiftAPITools.act
    rw [hreq]
    rfl
  · unfold strContainsSub notConfiguredMessage
    apply List.any_eq_true.2
    refine ⟨0, List.mem_range.2 (by omega), ?_⟩
    rw [List.drop_zero, List.isPrefixOf_iff_prefix]
    have hd : (("SwiftAPI not configured. Action \x27" ++ action_name) ++
          "\x27 blocked. Set SWIFTAPI_KEY environment variable or pass swiftapi_key parameter.").data
        = "SwiftAPI not configured. Action \x27".data ++
            (action_name.data ++
              "\x27 blocked. Set SWIFTAPI_KEY environment variable or pass swiftapi_key parameter.".data) := by
      rw [String.data_append, String.data_append, List.append_assoc]
    rw [hd]
    exact List.IsPrefix.trans (by decide) (List.prefix_append _ _)

/-- Witness for claim C2 at the concrete high-risk action "click" with
no api key, `fail_open=true` and an unreachable authority. -/
theorem act_blocked_when_not_configured_witness :
    SwiftAPITools.act false (initAttestationProvider none none true)
        (HttpVerifyOutcome.requestError "connection refused") "click"
      = ActDecision.blockedError
          ("SwiftAPI attestation failed for \x27click\x27: " ++
            notConfiguredMessage "click")
    ∧ strContainsSub (notConfiguredMessage "click") "SwiftAPI not configured"
        = true :=
  act_blocked_when_not_configured false true none
    (HttpVerifyOutcome.requestError "connection refused") "click"
    (by decide) (by decide)

/-- Claim C8: `NullAttestationProvider.verify_action` under the default
construction (`log_actions=True`, empty log) returns an approved result
without any transport parameter to consult, and after one call the
action log holds exactly the one record of that action; in general one
call appends exactly one record when `log_actions` is set and none
otherwise. -/
theorem null_provider_logs_once (action_type : String)
    (action_params : List (String × JsonVal)) (intent timestamp : String)
    (p : NullAttestationProvider) :
    (defaultNullProvider.verify_action action_type action_params intent timestamp).1.approved
        = true
    ∧ (defaultNullProvider.verify_action action_type action_params intent
          timestamp).2.get_action_log
        = [⟨action_type, action_params, intent, timestamp⟩]
    ∧ (p.verify_action action_type action_params intent timestamp).2.action_log
        = p.action_log ++
            (if p.log_actions then [⟨action_type, action_params, intent, timestamp⟩]
             else []) := by
  refine ⟨rfl, rfl, ?_⟩
  unfold NullAttestationProvider.verify_action
  cases hl : p.log_actions <;> simp [hl]

/-- Claim C10: whenever either built-in provider's `verify_action`
returns normally (rather than raising), the returned result has
`approved=true` — both the authority-backed provider and the null
provider only ever construct results with `approved := True`, and a
policy denial is signalled by raising `PolicyViolationError` — so the
mediator's `approved=false` blocking branch (`blockedNotApproved`) is
unreachable with these providers. -/
theorem builtin_providers_always_approved (p : Provider)
    (outcome : HttpVerifyOutcome) (action_type : String) :
    (∀ r, provider_verify p outcome action_type = ProviderVerifyResult.ok r →
        r.approved = true)
    ∧ (∀ (attest_all : Bool) (msg : String),
        SwiftAPITools.act attest_all (some p) outcome action_type
          ≠ ActDecision.blockedNotApproved msg) := by
  have hok : ∀ r, provider_verify p outcome action_type = ProviderVerifyResult.ok r →
      r.approved = true := by
    intro r h
    cases p with
    | nullProvider l =>
        simp only [provider_verify] at h
        injection h with h'
        rw [← h']
        rfl
    | swiftapi fo =>
        simp only [provider_verify, SwiftAPIAttestationProvider.verify_action] at h
        split at h
        · split at h
          · cases h
          · injection h with h'
            rw [← h']
        · cases h
        · split at h
          · injection h with h'
            rw [← h']
          · cases h
  refine ⟨hok, ?_⟩
  intro attest_all msg h
  unfold SwiftAPITools.act SwiftAPITools.get_attestation at h
  split at h
  · split at h
    · rename_i attestation heq
      split at h
      · rename_i hfalse
        rw [hok attestation heq] at hfalse
        cases hfalse
      · cases h
    · cases h
    · cases h
  · cases h

/-- Witness for claim C10: the null provider's concrete result is
approved, via the theorem applied at a concrete provider, outcome and
action with its hypothesis discharged by `rfl`. -/
theorem builtin_providers_always_approved_witness :
    nullVerifyResult.approved = true :=
  (builtin_providers_always_approved (Provider.nullProvider true)
    (HttpVerifyOutcome.requestError "down") "click").1 nullVerifyResult rfl

/-! ## Fingerprint determinism (claim C7) -/

/-- Strict key order on fields, used to pin down the sorted list. -/
def fieldKeyLt {α : Type} (a b : String × α) : Prop := a.1 < b.1

instance {α : Type} : IsAntisymm (String × α) fieldKeyLt :=
  ⟨fun _ _ h h2 => absurd (lt_trans h h2) (lt_irrefl _)⟩

/-- Two equal-as-mappings field lists (permutations with duplicate-free
keys) sort to the same list: both sorted lists are permutations of each
other, sorted under the key order, and strictly sorted thanks to the
key-distinctness, so they are equal. -/
theorem sortRenderedFields_eq_of_perm {l1 l2 : List (String × String)}
    (hp : List.Perm l1 l2) (hn : (l1.map Prod.fst).Nodup) :
    sortRenderedFields l1 = sortRenderedFields l2 := by
  have hperm1 : List.Perm (sortRenderedFields l1) l1 :=
    List.perm_insertionSort fieldKeyLe l1
  have hperm2 : List.Perm (sortRenderedFields l2) l2 :=
    List.perm_insertionSort fieldKeyLe l2
  have h1 : List.Sorted fieldKeyLe (sortRenderedFields l1) :=
    List.sorted_insertionSort fieldKeyLe l1
  have h2 : List.Sorted fieldKeyLe (sortRenderedFields l2) :=
    List.sorted_insertionSort fieldKeyLe l2
  have hperm : List.Perm (sortRenderedFields l1) (sortRenderedFields l2) :=
    (hperm1.trans hp).trans hperm2.symm
  have hn1 : ((sortRenderedFields l1).map Prod.fst).Nodup :=
    ((hperm1.map Prod.fst).nodup_iff).2 hn
  have hne1 : (sortRenderedFields l1).Pairwise (fun a b : String × String => a.1 ≠ b.1) :=
    (List.pairwise_map).1 hn1
  have hs1 : List.Sorted fieldKeyLt (sortRenderedFields l1) :=
    (h1.and hne1).imp (fun h => lt_of_le_of_ne h.1 h.2)
  have hn2 : ((sortRenderedFields l2).map Prod.fst).Nodup :=
    ((hperm2.map Prod.fst).nodup_iff).2 ((hp.map Prod.fst).nodup_iff.1 hn)
  have hne2 : (sortRenderedFields l2).Pairwise (fun a b : String × String => a.1 ≠ b.1) :=
    (List.pairwise_map).1 hn2
  have hs2 : List.Sorted fieldKeyLt (sortRenderedFields l2) :=
    (h2.and hne2).imp (fun h => lt_of_le_of_ne h.1 h.2)
  exact List.eq_of_perm_of_sorted hperm hs1 hs2

/-- Rendering object fields is a map over the field list. -/
theorem serializeFields_eq_map (l : List (String × JsonVal)) :
    serializeFields l = l.map (fun p => (p.1, serializeVal p.2)) := by
  induction l with
  | nil => rfl
  | cons x xs ih =>
      cases x with
      | mk k v => simp only [serializeFields, ih, List.map_cons]

/-- The canonically sorted rendered fields of two equal-as-mappings
field lists coincide. -/
theorem sortedRendered_perm_eq {p1 p2 : List (String × JsonVal)}
    (hp : List.Perm p1 p2) (hn : (p1.map Prod.fst).Nodup) :
    sortRenderedFields (serializeFields p1)
      = sortRenderedFields (serializeFields p2) := by
  have h1 : List.Perm (serializeFields p1) (serializeFields p2) := by
    rw [serializeFields_eq_map, serializeFields_eq_map]
    exact hp.map _
  have h2 : ((serializeFields p1).map Prod.fst).Nodup := by
    rw [serializeFields_eq_map, List.map_map]
    exact hn
  exact sortRenderedFields_eq_of_perm h1 h2

/-- Claim C7: the action fingerprint is deterministic — for any action
type and any two parameter dictionaries that are equal as mappings (same
key/value pairs in any insertion order, keys duplicate-free as in a
Python dict), `_generate_action_fingerprint` yields the identical
digest, and repeated calls on the same input yield the same digest. -/
theorem fingerprint_deterministic (action_name : String)
    (p1 p2 : List (String × JsonVal))
    (hperm : List.Perm p1 p2) (hkeys : (p1.map Prod.fst).Nodup) :
    generate_action_fingerprint action_name p1
        = generate_action_fingerprint action_name p2
    ∧ generate_action_fingerprint action_name p1
        = generate_action_fingerprint action_name p1 := by
  refine ⟨?_, rfl⟩
  unfold generate_action_fingerprint
  have hsf := sortedRendered_perm_eq hperm hkeys
  refine congrArg sha256Hex (congrArg utf8Bytes ?_)
  simp only [serializeVal, serializeFields]
  rw [hsf]

/-- Witness for claim C7: two concrete two-entry parameter dictionaries
differing only in insertion order fingerprint identically. -/
theorem fingerprint_deterministic_witness :
    generate_action_fingerprint "click"
        [("a", JsonVal.num 1), ("b", JsonVal.num 2)]
      = generate_action_fingerprint "click"
        [("b", JsonVal.num 2), ("a", JsonVal.num 1)]
    ∧ generate_action_fingerprint "click"
        [("a", JsonVal.num 1), ("b", JsonVal.num 2)]
      = generate_action_fingerprint "click"
        [("a", JsonVal.num 1), ("b", JsonVal.num 2)] :=
  fingerprint_deterministic "click"
    [("a", JsonVal.num 1), ("b", JsonVal.num 2)]
    [("b", JsonVal.num 2), ("a", JsonVal.num 1)]
    (List.Perm.swap ("b", JsonVal.num 2) ("a", JsonVal.num 1) [])
    (by decide)
